import Mathlib

/-!
Verification of the Commander finite state machine
(art_nav/src/commander/FSM.cc and FSM.h).

The FSM's per-cycle entry point `control` computes the most urgent event
with `current_event`, commits the state change read from the transition
table `ttable`, and invokes the table's action method, which returns the
cycle's Order.  External collaborators that live outside the commander
sources (ElementID, the checkpoint sequence, route replanning, order
construction) are modelled from the specification, as noted on each
definition.
-/

namespace ArtCmdr

/-- Modelled from the spec: waypoint identifier (ElementID) — an opaque
name distinguishing network nodes, equality-comparable, with a reserved
none sentinel (the default-constructed `ElementID()` of the C++ code).
The concrete C++ type lives in a header outside the commander sources. -/
structure ElementID where
  name : Nat
deriving DecidableEq

/-- The reserved sentinel value, `ElementID()` in the C++ code. -/
def ElementID.noneID : ElementID := ⟨0⟩

/-- Commander FSM states (State.h, outside the commander sources; the
three states are fixed by the transition table in FSM.cc). -/
inductive CmdrState where
  | Init
  | Road
  | Done
deriving DecidableEq

/-- Commander FSM events (State.h, outside the commander sources; the
seven events are fixed by the transition table in FSM.cc). -/
inductive CmdrEvent where
  | Blocked
  | Done
  | EnterLane
  | Fail
  | None
  | Replan
  | Wait
deriving DecidableEq

/-- Order behaviors produced by the action methods of FSM.cc. -/
inductive Behavior where
  | Abort
  | Go
  | Initialize'
  | Quit
deriving DecidableEq

/-- Modelled from the spec: an Order is the FSM's sole output, a behavior
selector; the remaining message fields are transport-layer concerns. -/
structure Order where
  behavior : Behavior
deriving DecidableEq

/-- A directed edge of the planned route (WayPointEdge): start and end
node indices into the waypoint graph. -/
structure WayPointEdge where
  startnode_index : Nat
  endnode_index : Nat
deriving DecidableEq

/-- The navigator state snapshot fields read by FSM.cc. -/
structure NavigatorState where
  last_waypt : ElementID
  replan_waypt : ElementID
  road_blocked : Bool
deriving DecidableEq

/-- The FSM action methods of FSM.cc, as a tagged enumeration (the C++
code stores them as method pointers in the transition table). -/
inductive Action where
  | ActionError
  | ActionFail
  | ActionWait
  | ActionInDone
  | ActionInInit
  | ActionInRoad
  | ActionToDone
  | ActionToRoad
  | BlockedInRoad
  | ReplanInRoad
  | InitToRoad
deriving DecidableEq

/-- A transition table entry: next state and action (transtion_t). -/
structure Transition where
  next : CmdrState
  action : Action
deriving DecidableEq

/-- Modelled from the spec: the Commander collaborator state touched by
the FSM — the planned Route (ordered edge list, popped from the front),
the checkpoint sequence (current goal, lookahead goal2, and the pending
checkpoints behind them), the waypoint graph lookup (node index to node
id, not-found as `Option.none`), the blockage set, and the outcome of
the next `replan_route` attempt.  `advances` and `replans` count calls
of `next_checkpoint` and `replan_route` for the statements below. -/
structure Cmdr where
  route : List WayPointEdge
  goal : ElementID
  goal2 : ElementID
  pending : List ElementID
  graph : Nat → Option ElementID
  blockages : List ElementID
  replan_ok : Bool
  replan_result : List WayPointEdge
  advances : Nat
  replans : Nat

/-- The FSM's private per-instance memory (FSM.h): the tracked waypoint,
the last observed replan-request waypoint, and the previous and current
states. -/
structure FSMSt where
  current_way : ElementID
  old_replan : ElementID
  prev : CmdrState
  state : CmdrState
deriving DecidableEq

/-- One cycle's whole mutable state: the FSM memory, the commander
collaborators, and the FSM's copy of the navigator state snapshot. -/
structure World where
  fsm : FSMSt
  cmdr : Cmdr
  navstate : NavigatorState

/-- Modelled from the spec: Commander::next_checkpoint advances the
checkpoint sequence one checkpoint (goal takes goal2, goal2 takes the
next pending checkpoint or the none sentinel) and returns false when no
checkpoints remain after advancing.  Lives in command.cc, outside the
commander FSM sources. -/
def next_checkpoint (c : Cmdr) : Bool × Cmdr :=
  let c' : Cmdr :=
    { c with
      goal := c.goal2
      goal2 := c.pending.headD ElementID.noneID
      pending := c.pending.tail
      advances := c.advances + 1 }
  (!(decide (c'.goal = ElementID.noneID)), c')

/-- Modelled from the spec: Commander::replan_route attempts to produce
a new Route, returning success; on failure it must not throw and leaves
the prior Route in place.  Lives in command.cc, outside the commander
FSM sources; the attempt's outcome and the fresh route are oracles held
in the `Cmdr` record. -/
def replan_route (c : Cmdr) : Bool × Cmdr :=
  if c.replan_ok then
    (true, { c with route := c.replan_result, replans := c.replans + 1 })
  else
    (false, { c with replans := c.replans + 1 })

/-- Modelled from the spec: Commander::prepare_order builds the cycle's
Order with the given behavior (the waypoint payload is out of scope). -/
def prepare_order (b : Behavior) : Order := ⟨b⟩

/-- The abort order built by CmdrFSM::ActionFail. -/
def fail_order : Order := ⟨Behavior.Abort⟩

/-- The quit order built by CmdrFSM::ActionInDone. -/
def done_order : Order := ⟨Behavior.Quit⟩

/-- The initialize order built by CmdrFSM::ActionInInit. -/
def init_order : Order := ⟨Behavior.Initialize'⟩

/-- Outcome of the do-while route walk of CmdrFSM::current_event:
`oob` when `route.at(0)` is evaluated on an empty route (out-of-bounds
access in the C++ code), `fail` when a graph lookup returns not-found
(carrying the popped route and the tracked waypoint as mutated so far),
`ok` with the popped route, the tracked waypoint, both goal flags, and
the edge left at the front of the route. -/
inductive WalkResult where
  | oob
  | fail (route : List WayPointEdge) (cw : ElementID)
  | ok (route : List WayPointEdge) (cw : ElementID) (g1 g2 : Bool) (fe : WayPointEdge)
deriving DecidableEq

/-- The do-while loop of CmdrFSM::current_event: pop the front edge,
peek the new front edge, resolve its start node, update the tracked
waypoint and the goal flags, and continue while the reported waypoint
is unmatched and more than one edge remains. -/
def walk (graph : Nat → Option ElementID) (goal goal2 lastw : ElementID) :
    List WayPointEdge → ElementID → Bool → Bool → WalkResult
  | [], _, _, _ => WalkResult.oob
  | _ :: rest, cw, g1, g2 =>
    match rest with
    | [] => WalkResult.oob
    | fe :: _ =>
      match graph fe.startnode_index with
      | Option.none => WalkResult.fail rest cw
      | Option.some nid =>
        if lastw ≠ nid ∧ 1 < rest.length then
          walk graph goal goal2 lastw rest nid
            (g1 || decide (nid = goal)) (g2 || decide (nid = goal2))
        else
          WalkResult.ok rest nid
            (g1 || decide (nid = goal)) (g2 || decide (nid = goal2)) fe

/-- Outcome of the whole progress-tracking step (walk plus the final
end-node fixup when the reported waypoint was never matched). -/
inductive TrackResult where
  | oob
  | fail (route : List WayPointEdge) (cw : ElementID)
  | ok (route : List WayPointEdge) (cw : ElementID) (g1 g2 : Bool)
deriving DecidableEq

/-- The progress-tracking step of CmdrFSM::current_event: run the walk;
if the reported waypoint was never matched, resolve the end node of the
edge left at the front of the route (same fail-on-lookup-miss rule) and
re-check goal membership. -/
def track (graph : Nat → Option ElementID) (goal goal2 lastw : ElementID)
    (route : List WayPointEdge) (cw0 : ElementID) : TrackResult :=
  match walk graph goal goal2 lastw route cw0 false false with
  | WalkResult.oob => TrackResult.oob
  | WalkResult.fail r c => TrackResult.fail r c
  | WalkResult.ok r c g1 g2 fe =>
    if lastw ≠ c then
      match graph fe.endnode_index with
      | Option.none => TrackResult.fail r c
      | Option.some nid =>
        TrackResult.ok r nid (g1 || decide (nid = goal)) (g2 || decide (nid = goal2))
    else
      TrackResult.ok r c g1 g2

/-- The checkpoint-advancement step of CmdrFSM::current_event: advance
once if new_goal1 fired, and once more if new_goal1 and new_goal2 both
fired; `finished` takes the negated result of the last advance. -/
def advanceGoals (g1 g2 : Bool) (c : Cmdr) : Bool × Cmdr :=
  let s1 := if g1 then (let p := next_checkpoint c; (!p.1, p.2)) else (false, c)
  if g1 && g2 then (let p := next_checkpoint s1.2; (!p.1, p.2)) else s1

/-- The priority-resolution step of CmdrFSM::current_event: finished
wins, then an edge-triggered change of the replan-request waypoint
(updating old_replan as a side effect, and producing Blocked or Replan
only when the new value is not the none sentinel), then a reached
checkpoint whose replan attempt fails, else None. -/
def prioritize (finished g1 : Bool) (w : World) : CmdrEvent × World :=
  if finished then
    (CmdrEvent.Done, w)
  else if w.navstate.replan_waypt ≠ w.fsm.old_replan then
    if w.navstate.replan_waypt ≠ ElementID.noneID then
      if w.navstate.road_blocked then
        (CmdrEvent.Blocked, { w with fsm.old_replan := w.navstate.replan_waypt })
      else
        (CmdrEvent.Replan, { w with fsm.old_replan := w.navstate.replan_waypt })
    else
      (CmdrEvent.None, { w with fsm.old_replan := w.navstate.replan_waypt })
  else if g1 then
    if !(replan_route w.cmdr).1 then
      (CmdrEvent.Wait, { w with cmdr := (replan_route w.cmdr).2 })
    else
      (CmdrEvent.None, { w with cmdr := (replan_route w.cmdr).2 })
  else
    (CmdrEvent.None, w)

/-- CmdrFSM::current_event: bootstrap with EnterLane while the Route is
empty (setting the tracked waypoint, and checking off the first goal if
the start position already is it); otherwise track progress when the
reported waypoint moved, advance reached checkpoints, and resolve the
most urgent event.  `Option.none` marks the out-of-bounds route access
of the C++ walk (claim C10); a graph lookup miss returns Fail at once,
after the walk's mutations of route and tracked waypoint. -/
def current_event (w : World) : Option (CmdrEvent × World) :=
  if w.cmdr.route.length = 0 then
    if w.navstate.last_waypt = w.cmdr.goal then
      Option.some (CmdrEvent.EnterLane,
        { w with fsm.current_way := w.navstate.last_waypt,
                 cmdr := (next_checkpoint w.cmdr).2 })
    else
      Option.some (CmdrEvent.EnterLane,
        { w with fsm.current_way := w.navstate.last_waypt })
  else if w.navstate.last_waypt ≠ w.fsm.current_way then
    match track w.cmdr.graph w.cmdr.goal w.cmdr.goal2 w.navstate.last_waypt
        w.cmdr.route w.fsm.current_way with
    | TrackResult.oob => Option.none
    | TrackResult.fail r c =>
      Option.some (CmdrEvent.Fail, { w with cmdr.route := r, fsm.current_way := c })
    | TrackResult.ok r c g1 g2 =>
      let w1 : World := { w with cmdr.route := r, fsm.current_way := c }
      let a := advanceGoals g1 g2 w1.cmdr
      Option.some (prioritize a.1 g1 { w1 with cmdr := a.2 })
  else
    let a := advanceGoals false false w.cmdr
    Option.some (prioritize a.1 false { w with cmdr := a.2 })

/-- The default transition table cell: ActionError, staying in the
current state (the constructor's initialization loop). -/
def ttable0 : CmdrEvent → CmdrState → Transition :=
  fun _ s => ⟨s, Action.ActionError⟩

/-- CmdrFSM::Add: install one transition table entry. -/
def tAdd (e : CmdrEvent) (a : Action) (fs ts : CmdrState)
    (t : CmdrEvent → CmdrState → Transition) : CmdrEvent → CmdrState → Transition :=
  fun e' s' => if e' = e ∧ s' = fs then ⟨ts, a⟩ else t e' s'

/-- The transition table built by the CmdrFSM constructor: the default
error entries overridden by the explicit Add calls of FSM.cc. -/
def ttable : CmdrEvent → CmdrState → Transition :=
  tAdd CmdrEvent.Blocked Action.ActionInDone CmdrState.Done CmdrState.Done <|
  tAdd CmdrEvent.Blocked Action.ActionInInit CmdrState.Init CmdrState.Init <|
  tAdd CmdrEvent.Blocked Action.BlockedInRoad CmdrState.Road CmdrState.Road <|
  tAdd CmdrEvent.Done Action.ActionInDone CmdrState.Done CmdrState.Done <|
  tAdd CmdrEvent.Done Action.ActionToDone CmdrState.Init CmdrState.Done <|
  tAdd CmdrEvent.Done Action.ActionToDone CmdrState.Road CmdrState.Done <|
  tAdd CmdrEvent.EnterLane Action.ActionInDone CmdrState.Done CmdrState.Done <|
  tAdd CmdrEvent.EnterLane Action.InitToRoad CmdrState.Init CmdrState.Road <|
  tAdd CmdrEvent.EnterLane Action.ActionInRoad CmdrState.Road CmdrState.Road <|
  tAdd CmdrEvent.Fail Action.ActionInDone CmdrState.Done CmdrState.Done <|
  tAdd CmdrEvent.Fail Action.ActionFail CmdrState.Init CmdrState.Done <|
  tAdd CmdrEvent.Fail Action.ActionFail CmdrState.Road CmdrState.Done <|
  tAdd CmdrEvent.None Action.ActionInDone CmdrState.Done CmdrState.Done <|
  tAdd CmdrEvent.None Action.ActionInInit CmdrState.Init CmdrState.Init <|
  tAdd CmdrEvent.None Action.ActionInRoad CmdrState.Road CmdrState.Road <|
  tAdd CmdrEvent.Wait Action.ActionInDone CmdrState.Done CmdrState.Done <|
  tAdd CmdrEvent.Wait Action.ActionInInit CmdrState.Init CmdrState.Init <|
  tAdd CmdrEvent.Wait Action.ActionWait CmdrState.Road CmdrState.Road <|
  tAdd CmdrEvent.Replan Action.ActionInDone CmdrState.Done CmdrState.Done <|
  tAdd CmdrEvent.Replan Action.ActionInInit CmdrState.Init CmdrState.Init <|
  tAdd CmdrEvent.Replan Action.ReplanInRoad CmdrState.Road CmdrState.Road <|
  ttable0

/-- Run the action method selected by the transition table.  Each arm
mirrors the corresponding method of FSM.cc: ActionError delegates to
ActionFail; BlockedInRoad records the replan waypoint as blocked and
replans, falling back to ActionWait on failure; ReplanInRoad takes the
replan waypoint as the new last-known position and replans, falling
back to ActionWait on failure; InitToRoad attempts the first plan,
returning the ActionFail order on failure. -/
def runAction (a : Action) (w : World) : Order × World :=
  match a with
  | Action.ActionError => (fail_order, w)
  | Action.ActionFail => (fail_order, w)
  | Action.ActionWait => (prepare_order Behavior.Go, w)
  | Action.ActionInDone => (done_order, w)
  | Action.ActionInInit => (init_order, w)
  | Action.ActionInRoad => (prepare_order Behavior.Go, w)
  | Action.ActionToDone => (done_order, w)
  | Action.ActionToRoad => (prepare_order Behavior.Go, w)
  | Action.BlockedInRoad =>
    if (replan_route { w.cmdr with
          blockages := w.cmdr.blockages ++ [w.navstate.replan_waypt] }).1 = false then
      (prepare_order Behavior.Go,
        { w with cmdr := (replan_route { w.cmdr with
            blockages := w.cmdr.blockages ++ [w.navstate.replan_waypt] }).2 })
    else
      (prepare_order Behavior.Go,
        { w with cmdr := (replan_route { w.cmdr with
            blockages := w.cmdr.blockages ++ [w.navstate.replan_waypt] }).2 })
  | Action.ReplanInRoad =>
    if (replan_route w.cmdr).1 = false then
      (prepare_order Behavior.Go,
        { w with navstate.last_waypt := w.navstate.replan_waypt,
                 cmdr := (replan_route w.cmdr).2 })
    else
      (prepare_order Behavior.Go,
        { w with navstate.last_waypt := w.navstate.replan_waypt,
                 cmdr := (replan_route w.cmdr).2 })
  | Action.InitToRoad =>
    if (replan_route w.cmdr).1 = false then
      (fail_order, { w with cmdr := (replan_route w.cmdr).2 })
    else
      (prepare_order Behavior.Go, { w with cmdr := (replan_route w.cmdr).2 })

/-- The dispatch half of CmdrFSM::control: look up the transition for
the event and the current state, commit the state change (recording the
previous state) before invoking the action, and run the action. -/
def dispatch (e : CmdrEvent) (w : World) : Order × World :=
  runAction (ttable e w.fsm.state).action
    { w with fsm.prev := w.fsm.state, fsm.state := (ttable e w.fsm.state).next }

/-- CmdrFSM::control: copy the navigator state snapshot, compute the
most urgent event, and dispatch it; `Option.none` marks the one
out-of-bounds route access reachable inside current_event. -/
def control (nav : NavigatorState) (w : World) : Option (Order × World) :=
  match current_event { w with navstate := nav } with
  | Option.none => Option.none
  | Option.some (e, w') => Option.some (dispatch e w')

/-! Helper lemmas shared by the claim theorems below. -/

theorem ttable_done (e : CmdrEvent) :
    ttable e CmdrState.Done = ⟨CmdrState.Done, Action.ActionInDone⟩ := by
  cases e <;> rfl

theorem prioritize_fsm_state (f g1 : Bool) (w : World) :
    (prioritize f g1 w).2.fsm.state = w.fsm.state := by
  unfold prioritize replan_route
  split_ifs <;> rfl

theorem prioritize_navstate (f g1 : Bool) (w : World) :
    (prioritize f g1 w).2.navstate = w.navstate := by
  unfold prioritize replan_route
  split_ifs <;> rfl

theorem prioritize_blockages (f g1 : Bool) (w : World) :
    (prioritize f g1 w).2.cmdr.blockages = w.cmdr.blockages := by
  unfold prioritize replan_route
  split_ifs <;> rfl

theorem current_event_fsm_state (w : World) (e : CmdrEvent) (w' : World)
    (h : current_event w = Option.some (e, w')) : w'.fsm.state = w.fsm.state := by
  unfold current_event at h
  split_ifs at h
  · cases h
    rfl
  · cases h
    rfl
  · rcases htr : track w.cmdr.graph w.cmdr.goal w.cmdr.goal2 w.navstate.last_waypt
        w.cmdr.route w.fsm.current_way with _ | ⟨r, c⟩ | ⟨r, c, g1, g2⟩ <;>
      rw [htr] at h
    · cases h
    · cases h
      rfl
    · simp only [Option.some.injEq] at h
      have h2 : _ = w' := congrArg Prod.snd h
      rw [← h2]
      exact prioritize_fsm_state _ _ _
  · simp only [Option.some.injEq] at h
    have h2 : _ = w' := congrArg Prod.snd h
    rw [← h2]
    exact prioritize_fsm_state _ _ _

theorem dispatch_done (e : CmdrEvent) (w : World) (hs : w.fsm.state = CmdrState.Done) :
    dispatch e w =
      (done_order, { w with fsm.prev := CmdrState.Done, fsm.state := CmdrState.Done }) := by
  unfold dispatch
  rw [hs, ttable_done]
  rfl

theorem ttable_blocked_road :
    ttable CmdrEvent.Blocked CmdrState.Road = ⟨CmdrState.Road, Action.BlockedInRoad⟩ := rfl

theorem ttable_replan_road :
    ttable CmdrEvent.Replan CmdrState.Road = ⟨CmdrState.Road, Action.ReplanInRoad⟩ := rfl

theorem ttable_fail_road :
    ttable CmdrEvent.Fail CmdrState.Road = ⟨CmdrState.Done, Action.ActionFail⟩ := rfl

theorem ttable_enterlane_init :
    ttable CmdrEvent.EnterLane CmdrState.Init = ⟨CmdrState.Road, Action.InitToRoad⟩ := rfl

/-- C1: Done is an absorbing state — whenever control is called with the
FSM in Done and current_event resolves to any event, the FSM remains in
Done after dispatch and the returned order's behavior is Quit. -/
theorem cmdr_done_absorbing (nav : NavigatorState) (w : World) (o : Order) (w2 : World)
    (hs : w.fsm.state = CmdrState.Done)
    (hc : control nav w = Option.some (o, w2)) :
    w2.fsm.state = CmdrState.Done ∧ o.behavior = Behavior.Quit := by
  unfold control at hc
  rcases hce : current_event { w with navstate := nav } with _ | ⟨e, w'⟩
  · rw [hce] at hc
    cases hc
  · rw [hce] at hc
    dsimp only at hc
    have hst : w'.fsm.state = CmdrState.Done := by
      rw [current_event_fsm_state _ _ _ hce]
      exact hs
    rw [dispatch_done e w' hst] at hc
    cases hc
    exact ⟨rfl, rfl⟩

/-- Concrete Done-state world for the C1 witness. -/
def doneWorld : World :=
  { fsm := ⟨⟨5⟩, ⟨0⟩, CmdrState.Done, CmdrState.Done⟩
    cmdr :=
      { route := [], goal := ⟨7⟩, goal2 := ⟨8⟩, pending := [⟨9⟩]
        graph := fun _ => Option.none, blockages := [], replan_ok := true
        replan_result := [], advances := 0, replans := 0 }
    navstate := ⟨⟨5⟩, ⟨0⟩, false⟩ }

/-- The navigator snapshot used with `doneWorld`. -/
def doneNav : NavigatorState := ⟨⟨5⟩, ⟨0⟩, false⟩

/-- Witness for C1 at the concrete Done-state world. -/
theorem cmdr_done_absorbing_witness :
    doneWorld.fsm.state = CmdrState.Done ∧
    control doneNav doneWorld = Option.some (done_order, doneWorld) ∧
    (doneWorld.fsm.state = CmdrState.Done ∧ done_order.behavior = Behavior.Quit) :=
  ⟨rfl, rfl, cmdr_done_absorbing doneNav doneWorld done_order doneWorld rfl rfl⟩

/-- C5 counterexample: the transition table of FSM.cc maps EnterLane in
Init to next state Road (not a stay-in-Init no-op) and EnterLane in
Road to the steady-state ActionInRoad (not the InitToRoad bootstrap). -/
theorem cmdr_enterlane_row_cex :
    (ttable CmdrEvent.EnterLane CmdrState.Init).next ≠ CmdrState.Init ∧
    (ttable CmdrEvent.EnterLane CmdrState.Road).action ≠ Action.InitToRoad :=
  ⟨by decide, by decide⟩

/-- C5 (amended): the EnterLane transition-table row — in Init the FSM
moves to Road via InitToRoad (bootstrapping the first plan), in Road it
stays in Road via the steady-state ActionInRoad, and in Done it stays
in Done. -/
theorem cmdr_enterlane_row :
    ttable CmdrEvent.EnterLane CmdrState.Init = ⟨CmdrState.Road, Action.InitToRoad⟩ ∧
    ttable CmdrEvent.EnterLane CmdrState.Road = ⟨CmdrState.Road, Action.ActionInRoad⟩ ∧
    ttable CmdrEvent.EnterLane CmdrState.Done = ⟨CmdrState.Done, Action.ActionInDone⟩ :=
  ⟨rfl, rfl, rfl⟩

/-- C6: when a Blocked or Replan event is dispatched in state Road and
replan_route fails, the returned order is Go with no new plan (the
route is unchanged, ActionWait semantics) and the state remains Road. -/
theorem cmdr_replan_failure_recoverable (e : CmdrEvent) (w : World)
    (hroad : w.fsm.state = CmdrState.Road)
    (hfail : w.cmdr.replan_ok = false)
    (he : e = CmdrEvent.Blocked ∨ e = CmdrEvent.Replan) :
    (dispatch e w).1.behavior = Behavior.Go ∧
    (dispatch e w).2.fsm.state = CmdrState.Road ∧
    (dispatch e w).2.cmdr.route = w.cmdr.route := by
  rcases he with he | he <;> subst he <;>
    simp only [dispatch, hroad, ttable_blocked_road, ttable_replan_road, runAction,
      replan_route, hfail, Bool.false_eq_true, if_false, prepare_order] <;>
    exact ⟨rfl, rfl, rfl⟩

/-- Concrete Road-state world with a failing replan oracle for the C6
witness. -/
def roadBlockedWorld : World :=
  { fsm := ⟨⟨5⟩, ⟨0⟩, CmdrState.Road, CmdrState.Road⟩
    cmdr :=
      { route := [⟨10, 11⟩], goal := ⟨7⟩, goal2 := ⟨8⟩, pending := [⟨9⟩]
        graph := fun _ => Option.none, blockages := [], replan_ok := false
        replan_result := [], advances := 0, replans := 0 }
    navstate := ⟨⟨5⟩, ⟨4⟩, true⟩ }

/-- Witness for C6 at the concrete Road-state world. -/
theorem cmdr_replan_failure_recoverable_witness :
    roadBlockedWorld.fsm.state = CmdrState.Road ∧
    roadBlockedWorld.cmdr.replan_ok = false ∧
    ((dispatch CmdrEvent.Blocked roadBlockedWorld).1.behavior = Behavior.Go ∧
     (dispatch CmdrEvent.Blocked roadBlockedWorld).2.fsm.state = CmdrState.Road ∧
     (dispatch CmdrEvent.Blocked roadBlockedWorld).2.cmdr.route =
       roadBlockedWorld.cmdr.route) :=
  ⟨rfl, rfl, cmdr_replan_failure_recoverable CmdrEvent.Blocked roadBlockedWorld rfl rfl
    (Or.inl rfl)⟩

theorem replan_route_blockages (c : Cmdr) : (replan_route c).2.blockages = c.blockages := by
  unfold replan_route
  split <;> rfl

theorem runAction_blockedInRoad (w : World) :
    runAction Action.BlockedInRoad w =
      (prepare_order Behavior.Go,
        { w with cmdr := (replan_route { w.cmdr with
            blockages := w.cmdr.blockages ++ [w.navstate.replan_waypt] }).2 }) := by
  unfold runAction
  dsimp only
  split <;> rfl

theorem dispatch_blocked_road (w : World) (hroad : w.fsm.state = CmdrState.Road) :
    dispatch CmdrEvent.Blocked w =
      (prepare_order Behavior.Go,
        { w with fsm.prev := CmdrState.Road, fsm.state := CmdrState.Road,
                 cmdr := (replan_route { w.cmdr with
                   blockages := w.cmdr.blockages ++ [w.navstate.replan_waypt] }).2 }) := by
  unfold dispatch
  rw [hroad, ttable_blocked_road]
  rw [runAction_blockedInRoad]

theorem dispatch_none_replans (w : World) :
    (dispatch CmdrEvent.None w).2.cmdr.replans = w.cmdr.replans := by
  unfold dispatch
  cases hs : w.fsm.state <;> rfl

/-- Concrete world for the C2 counterexample: state Road, the stored
old_replan is 3 while the snapshot requests the none sentinel, the road
is flagged blocked, and no route progress is reported (so no goal flag
fires and finished is false). -/
def sentinelBlockedWorld : World :=
  { fsm := ⟨⟨5⟩, ⟨3⟩, CmdrState.Road, CmdrState.Road⟩
    cmdr :=
      { route := [⟨10, 11⟩], goal := ⟨7⟩, goal2 := ⟨8⟩, pending := [⟨9⟩]
        graph := fun _ => Option.none, blockages := [], replan_ok := true
        replan_result := [], advances := 0, replans := 0 }
    navstate := ⟨⟨5⟩, ElementID.noneID, true⟩ }

/-- C2 counterexample: a cycle whose replan-request waypoint differs
from old_replan with road_blocked set and finished false, yet whose
event is None rather than Blocked — the new request value equals the
none sentinel, a case the claim does not exclude. -/
theorem cmdr_blocked_event_cex :
    sentinelBlockedWorld.navstate.replan_waypt ≠ sentinelBlockedWorld.fsm.old_replan ∧
    sentinelBlockedWorld.navstate.road_blocked = true ∧
    sentinelBlockedWorld.fsm.state = CmdrState.Road ∧
    (current_event sentinelBlockedWorld).map Prod.fst = Option.some CmdrEvent.None ∧
    CmdrEvent.None ≠ CmdrEvent.Blocked :=
  ⟨by decide, rfl, rfl, rfl, by decide⟩

/-- C2 (amended): at priority resolution with finished false, a changed
replan-request waypoint whose new value is not the none sentinel yields
Blocked whenever road_blocked is set, regardless of lower-priority
conditions (any new_goal1 flag and any replan oracle), and dispatching
Blocked in state Road invokes BlockedInRoad: the state stays Road and
the replan waypoint is appended to the blockage set. -/
theorem cmdr_blocked_event (g1 : Bool) (w : World)
    (hne : w.navstate.replan_waypt ≠ w.fsm.old_replan)
    (hsent : w.navstate.replan_waypt ≠ ElementID.noneID)
    (hblk : w.navstate.road_blocked = true)
    (hroad : w.fsm.state = CmdrState.Road) :
    (prioritize false g1 w).1 = CmdrEvent.Blocked ∧
    (dispatch CmdrEvent.Blocked (prioritize false g1 w).2).2.fsm.state = CmdrState.Road ∧
    (dispatch CmdrEvent.Blocked (prioritize false g1 w).2).2.cmdr.blockages =
      w.cmdr.blockages ++ [w.navstate.replan_waypt] := by
  have hP : prioritize false g1 w =
      (CmdrEvent.Blocked, { w with fsm.old_replan := w.navstate.replan_waypt }) := by
    unfold prioritize
    rw [if_neg (by simp), if_pos hne, if_pos hsent, if_pos hblk]
  have hD := dispatch_blocked_road
    { w with fsm.old_replan := w.navstate.replan_waypt } hroad
  refine ⟨by rw [hP], ?_, ?_⟩
  · rw [hP]
    dsimp only
    rw [hD]
  · rw [hP]
    dsimp only
    rw [hD]
    dsimp only
    rw [replan_route_blockages]

/-- Concrete Road-state world for the C2 witness: the replan request
changed from 0 to 4 (not the sentinel) with the road blocked. -/
def blockedRoadWorld : World :=
  { fsm := ⟨⟨5⟩, ⟨0⟩, CmdrState.Road, CmdrState.Road⟩
    cmdr :=
      { route := [⟨10, 11⟩], goal := ⟨7⟩, goal2 := ⟨8⟩, pending := [⟨9⟩]
        graph := fun _ => Option.none, blockages := [], replan_ok := true
        replan_result := [], advances := 0, replans := 0 }
    navstate := ⟨⟨5⟩, ⟨4⟩, true⟩ }

/-- Witness for the amended C2 at the concrete Road-state world. -/
theorem cmdr_blocked_event_witness :
    blockedRoadWorld.navstate.replan_waypt ≠ blockedRoadWorld.fsm.old_replan ∧
    blockedRoadWorld.navstate.replan_waypt ≠ ElementID.noneID ∧
    blockedRoadWorld.navstate.road_blocked = true ∧
    blockedRoadWorld.fsm.state = CmdrState.Road ∧
    ((prioritize false true blockedRoadWorld).1 = CmdrEvent.Blocked ∧
     (dispatch CmdrEvent.Blocked
       (prioritize false true blockedRoadWorld).2).2.fsm.state = CmdrState.Road ∧
     (dispatch CmdrEvent.Blocked
       (prioritize false true blockedRoadWorld).2).2.cmdr.blockages =
       blockedRoadWorld.cmdr.blockages ++ [blockedRoadWorld.navstate.replan_waypt]) :=
  ⟨by decide, by decide, rfl, rfl,
    cmdr_blocked_event true blockedRoadWorld (by decide) (by decide) rfl rfl⟩

/-- C9: whenever the replan-request waypoint differs from old_replan at
priority resolution (with finished false), old_replan is updated to the
new value no matter which event results; when the new value equals the
none sentinel, the cycle event is None — neither Blocked, Replan nor
Wait — and replan_route is not attempted that cycle (its call counter
is unchanged through priority resolution and through the None
dispatch), even if a checkpoint was just reached (any new_goal1). -/
theorem cmdr_old_replan_update (g1 : Bool) (w : World)
    (hne : w.navstate.replan_waypt ≠ w.fsm.old_replan) :
    (prioritize false g1 w).2.fsm.old_replan = w.navstate.replan_waypt ∧
    (w.navstate.replan_waypt = ElementID.noneID →
      (prioritize false g1 w).1 = CmdrEvent.None ∧
      (prioritize false g1 w).2.cmdr.replans = w.cmdr.replans ∧
      (dispatch CmdrEvent.None (prioritize false g1 w).2).2.cmdr.replans =
        w.cmdr.replans) := by
  constructor
  · unfold prioritize
    rw [if_neg (by simp), if_pos hne]
    split_ifs <;> rfl
  · intro hs
    have hP : prioritize false g1 w =
        (CmdrEvent.None, { w with fsm.old_replan := w.navstate.replan_waypt }) := by
      unfold prioritize
      rw [if_neg (by simp), if_pos hne, if_neg (not_not_intro hs)]
    refine ⟨by rw [hP], by rw [hP], ?_⟩
    rw [hP]
    dsimp only
    rw [dispatch_none_replans]

/-- Concrete world for the C9 witness: old_replan 3, the snapshot now
requesting the none sentinel, a checkpoint just reached (g1 true). -/
def replanNoneWorld : World :=
  { fsm := ⟨⟨5⟩, ⟨3⟩, CmdrState.Road, CmdrState.Road⟩
    cmdr :=
      { route := [⟨10, 11⟩], goal := ⟨7⟩, goal2 := ⟨8⟩, pending := [⟨9⟩]
        graph := fun _ => Option.none, blockages := [], replan_ok := false
        replan_result := [], advances := 0, replans := 0 }
    navstate := ⟨⟨5⟩, ElementID.noneID, true⟩ }

/-- Witness for C9 at the concrete world. -/
theorem cmdr_old_replan_update_witness :
    replanNoneWorld.navstate.replan_waypt ≠ replanNoneWorld.fsm.old_replan ∧
    ((prioritize false true replanNoneWorld).2.fsm.old_replan =
       replanNoneWorld.navstate.replan_waypt ∧
     (replanNoneWorld.navstate.replan_waypt = ElementID.noneID →
       (prioritize false true replanNoneWorld).1 = CmdrEvent.None ∧
       (prioritize false true replanNoneWorld).2.cmdr.replans =
         replanNoneWorld.cmdr.replans ∧
       (dispatch CmdrEvent.None
         (prioritize false true replanNoneWorld).2).2.cmdr.replans =
         replanNoneWorld.cmdr.replans)) :=
  ⟨by decide, cmdr_old_replan_update true replanNoneWorld (by decide)⟩

theorem replan_route_advances (c : Cmdr) : (replan_route c).2.advances = c.advances := by
  unfold replan_route
  split <;> rfl

theorem replan_route_fst (c : Cmdr) : (replan_route c).1 = c.replan_ok := by
  unfold replan_route
  split <;> simp [*]

/-- Concrete Road-state world for the C3 counterexample: the walk
passes the lookahead goal2 (node 5) without passing the primary goal
(node 7), so only new_goal2 fires. -/
def goal2OnlyWorld : World :=
  { fsm := ⟨⟨1⟩, ⟨0⟩, CmdrState.Road, CmdrState.Road⟩
    cmdr :=
      { route := [⟨10, 11⟩, ⟨20, 21⟩], goal := ⟨7⟩, goal2 := ⟨5⟩, pending := [⟨9⟩]
        graph := fun i => if i = 20 then Option.some ⟨5⟩ else Option.none
        blockages := [], replan_ok := true, replan_result := []
        advances := 0, replans := 0 }
    navstate := ⟨⟨5⟩, ⟨0⟩, false⟩ }

/-- C3 counterexample: a cycle whose route walk fires exactly one goal
flag — new_goal2 alone — yet advances the checkpoint sequence zero
times, not once: FSM.cc only advances when new_goal1 is set. -/
theorem cmdr_checkpoint_advance_cex :
    track goal2OnlyWorld.cmdr.graph goal2OnlyWorld.cmdr.goal goal2OnlyWorld.cmdr.goal2
        goal2OnlyWorld.navstate.last_waypt goal2OnlyWorld.cmdr.route
        goal2OnlyWorld.fsm.current_way =
      TrackResult.ok [⟨20, 21⟩] ⟨5⟩ false true ∧
    goal2OnlyWorld.cmdr.advances = 0 ∧
    (current_event goal2OnlyWorld).map (fun p => p.2.cmdr.advances) =
      Option.some 0 :=
  ⟨rfl, rfl, rfl⟩

/-- C3 (amended): after the route walk the checkpoint sequence is
advanced exactly once when new_goal1 fired alone, exactly twice when
new_goal1 and new_goal2 both fired (finished reflecting the second
advance), and zero times otherwise — in particular zero times when
new_goal2 fired alone; finished reflects the last advance performed. -/
theorem cmdr_checkpoint_advance (g1 g2 : Bool) (c : Cmdr) :
    (advanceGoals g1 g2 c).2.advances =
      c.advances + (if g1 && g2 then 2 else if g1 then 1 else 0) ∧
    (advanceGoals g1 g2 c).1 =
      (if g1 && g2 then !(next_checkpoint (next_checkpoint c).2).1
       else if g1 then !(next_checkpoint c).1
       else false) := by
  cases g1 <;> cases g2 <;>
    simp +arith [advanceGoals, next_checkpoint]

theorem dispatch_enterlane_init (w : World) (hinit : w.fsm.state = CmdrState.Init) :
    dispatch CmdrEvent.EnterLane w =
      ((if (replan_route w.cmdr).1 = false then fail_order
        else prepare_order Behavior.Go),
       { w with fsm.prev := CmdrState.Init, fsm.state := CmdrState.Road,
                cmdr := (replan_route w.cmdr).2 }) := by
  unfold dispatch
  rw [hinit, ttable_enterlane_init]
  unfold runAction
  dsimp only
  split <;> rfl

theorem dispatch_fail_road (w : World) (hroad : w.fsm.state = CmdrState.Road) :
    dispatch CmdrEvent.Fail w =
      (fail_order, { w with fsm.prev := CmdrState.Road, fsm.state := CmdrState.Done }) := by
  unfold dispatch
  rw [hroad, ttable_fail_road]
  rfl

theorem current_event_bootstrap (w : World) (hroute : w.cmdr.route = []) :
    current_event w =
      Option.some (CmdrEvent.EnterLane,
        if w.navstate.last_waypt = w.cmdr.goal then
          { w with fsm.current_way := w.navstate.last_waypt,
                   cmdr := (next_checkpoint w.cmdr).2 }
        else
          { w with fsm.current_way := w.navstate.last_waypt }) := by
  unfold current_event
  rw [hroute]
  dsimp only [List.length_nil]
  rw [if_pos rfl]
  split <;> rfl

theorem control_bootstrap (nav : NavigatorState) (w : World)
    (hstate : w.fsm.state = CmdrState.Init)
    (hroute : w.cmdr.route = []) :
    control nav w =
      Option.some
        ((if (replan_route (if nav.last_waypt = w.cmdr.goal then
              (next_checkpoint w.cmdr).2 else w.cmdr)).1 = false then fail_order
          else prepare_order Behavior.Go),
         { w with navstate := nav,
                  fsm.current_way := nav.last_waypt,
                  fsm.prev := CmdrState.Init,
                  fsm.state := CmdrState.Road,
                  cmdr := (replan_route (if nav.last_waypt = w.cmdr.goal then
                    (next_checkpoint w.cmdr).2 else w.cmdr)).2 }) := by
  unfold control
  rw [current_event_bootstrap { w with navstate := nav } hroute]
  dsimp only
  split <;> rw [dispatch_enterlane_init] <;> exact hstate

/-- Concrete Init-state world with a failing replan oracle for the C8
counterexample and witness. -/
def initFailWorld : World :=
  { fsm := ⟨⟨1⟩, ⟨0⟩, CmdrState.Init, CmdrState.Init⟩
    cmdr :=
      { route := [], goal := ⟨7⟩, goal2 := ⟨8⟩, pending := [⟨9⟩]
        graph := fun _ => Option.none, blockages := [], replan_ok := false
        replan_result := [], advances := 0, replans := 0 }
    navstate := ⟨⟨5⟩, ⟨0⟩, false⟩ }

/-- The navigator snapshot used with initFailWorld. -/
def initFailNav : NavigatorState := ⟨⟨5⟩, ⟨0⟩, false⟩

/-- C8 counterexample: when the first plan fails during InitToRoad the
cycle's order is Abort, but the FSM ends the cycle in state Road, not
in the terminal Done state — the dispatcher committed Init to Road
before invoking the action and ActionFail does not change the state. -/
theorem cmdr_init_replan_fail_cex :
    initFailWorld.fsm.state = CmdrState.Init ∧
    initFailWorld.cmdr.replan_ok = false ∧
    (control initFailNav initFailWorld).map (fun p => (p.1.behavior, p.2.fsm.state)) =
      Option.some (Behavior.Abort, CmdrState.Road) ∧
    CmdrState.Road ≠ CmdrState.Done :=
  ⟨rfl, rfl, rfl, by decide⟩

/-- C8 (amended): if the first route plan fails during InitToRoad while
bootstrapping the mission, the returned order is Abort and the FSM ends
that cycle in state Road — the dispatcher commits Init to Road before
invoking the action, so mission failure is signalled to the caller by
the Abort order rather than by the Done state. -/
theorem cmdr_init_replan_fail (nav : NavigatorState) (w : World)
    (hstate : w.fsm.state = CmdrState.Init)
    (hroute : w.cmdr.route = [])
    (hfail : w.cmdr.replan_ok = false) :
    ∃ w2, control nav w = Option.some (fail_order, w2) ∧
      w2.fsm.state = CmdrState.Road := by
  rw [control_bootstrap nav w hstate hroute]
  have hc : (replan_route (if nav.last_waypt = w.cmdr.goal then
      (next_checkpoint w.cmdr).2 else w.cmdr)).1 = false := by
    rw [replan_route_fst]
    split
    · exact hfail
    · exact hfail
  rw [if_pos hc]
  exact ⟨_, rfl, rfl⟩

/-- Witness for the amended C8 at the concrete Init-state world. -/
theorem cmdr_init_replan_fail_witness :
    initFailWorld.fsm.state = CmdrState.Init ∧
    initFailWorld.cmdr.route = [] ∧
    initFailWorld.cmdr.replan_ok = false ∧
    (∃ w2, control initFailNav initFailWorld = Option.some (fail_order, w2) ∧
      w2.fsm.state = CmdrState.Road) :=
  ⟨rfl, rfl, rfl, cmdr_init_replan_fail initFailNav initFailWorld rfl rfl rfl⟩

/-- C4: a cycle starting in Init with an empty route (and at least one
checkpoint remaining) resolves the EnterLane event, sets current_way to
the reported waypoint, advances the checkpoint sequence exactly once
precisely when that waypoint equals the first mission goal, and ends
the cycle in state Road. -/
theorem cmdr_init_bootstrap (nav : NavigatorState) (w : World)
    (hstate : w.fsm.state = CmdrState.Init)
    (hroute : w.cmdr.route = [])
    (_hck : w.cmdr.goal ≠ ElementID.noneID) :
    (current_event { w with navstate := nav }).map Prod.fst =
      Option.some CmdrEvent.EnterLane ∧
    ∃ o w2, control nav w = Option.some (o, w2) ∧
      w2.fsm.current_way = nav.last_waypt ∧
      w2.cmdr.advances =
        w.cmdr.advances + (if nav.last_waypt = w.cmdr.goal then 1 else 0) ∧
      w2.fsm.state = CmdrState.Road := by
  constructor
  · rw [current_event_bootstrap { w with navstate := nav } hroute]
    rfl
  · rw [control_bootstrap nav w hstate hroute]
    refine ⟨_, _, rfl, rfl, ?_, rfl⟩
    rw [replan_route_advances]
    split
    · simp [next_checkpoint]
    · simp

/-- Concrete Init-state world for the C4 witness: the reported waypoint
equals the first goal, so the bootstrap checks it off immediately. -/
def initBootWorld : World :=
  { fsm := ⟨⟨1⟩, ⟨0⟩, CmdrState.Init, CmdrState.Init⟩
    cmdr :=
      { route := [], goal := ⟨5⟩, goal2 := ⟨8⟩, pending := [⟨9⟩]
        graph := fun _ => Option.none, blockages := [], replan_ok := true
        replan_result := [⟨10, 11⟩], advances := 0, replans := 0 }
    navstate := ⟨⟨5⟩, ⟨0⟩, false⟩ }

/-- The navigator snapshot used with initBootWorld. -/
def initBootNav : NavigatorState := ⟨⟨5⟩, ⟨0⟩, false⟩

/-- Witness for C4 at the concrete Init-state world. -/
theorem cmdr_init_bootstrap_witness :
    initBootWorld.fsm.state = CmdrState.Init ∧
    initBootWorld.cmdr.route = [] ∧
    initBootWorld.cmdr.goal ≠ ElementID.noneID ∧
    ((current_event { initBootWorld with navstate := initBootNav }).map Prod.fst =
       Option.some CmdrEvent.EnterLane ∧
     ∃ o w2, control initBootNav initBootWorld = Option.some (o, w2) ∧
       w2.fsm.current_way = initBootNav.last_waypt ∧
       w2.cmdr.advances = initBootWorld.cmdr.advances +
         (if initBootNav.last_waypt = initBootWorld.cmdr.goal then 1 else 0) ∧
       w2.fsm.state = CmdrState.Road) :=
  ⟨rfl, rfl, by decide,
    cmdr_init_bootstrap initBootNav initBootWorld rfl rfl (by decide)⟩

/-- C7: when a graph lookup during the route walk returns not-found
(either a start-node lookup inside the loop or the final end-node
lookup), current_event resolves Fail immediately, and dispatching Fail
from Road moves the FSM to Done with an Abort order. -/
theorem cmdr_graph_lookup_fail (nav : NavigatorState) (w : World)
    (r : List WayPointEdge) (c : ElementID)
    (hroad : w.fsm.state = CmdrState.Road)
    (hroute : w.cmdr.route.length ≠ 0)
    (hmoved : nav.last_waypt ≠ w.fsm.current_way)
    (htrack : track w.cmdr.graph w.cmdr.goal w.cmdr.goal2 nav.last_waypt
        w.cmdr.route w.fsm.current_way = TrackResult.fail r c) :
    (current_event { w with navstate := nav }).map Prod.fst =
      Option.some CmdrEvent.Fail ∧
    ∃ w2, control nav w = Option.some (fail_order, w2) ∧
      fail_order.behavior = Behavior.Abort ∧
      w2.fsm.state = CmdrState.Done := by
  have hce : current_event { w with navstate := nav } =
      Option.some (CmdrEvent.Fail,
        { w with navstate := nav, cmdr.route := r, fsm.current_way := c }) := by
    unfold current_event
    dsimp only
    rw [if_neg hroute, if_pos hmoved, htrack]
  constructor
  · rw [hce]
    rfl
  · unfold control
    rw [hce]
    dsimp only
    rw [dispatch_fail_road]
    · exact ⟨_, rfl, rfl, rfl⟩
    · exact hroad

/-- Concrete Road-state world for the C7 witness: the waypoint graph
resolves no index, so the first start-node lookup of the walk fails. -/
def graphFailWorld : World :=
  { fsm := ⟨⟨1⟩, ⟨0⟩, CmdrState.Road, CmdrState.Road⟩
    cmdr :=
      { route := [⟨10, 11⟩, ⟨20, 21⟩], goal := ⟨7⟩, goal2 := ⟨8⟩, pending := [⟨9⟩]
        graph := fun _ => Option.none, blockages := [], replan_ok := true
        replan_result := [], advances := 0, replans := 0 }
    navstate := ⟨⟨5⟩, ⟨0⟩, false⟩ }

/-- The navigator snapshot used with graphFailWorld. -/
def graphFailNav : NavigatorState := ⟨⟨5⟩, ⟨0⟩, false⟩

/-- Witness for C7 at the concrete Road-state world. -/
theorem cmdr_graph_lookup_fail_witness :
    graphFailWorld.fsm.state = CmdrState.Road ∧
    graphFailWorld.cmdr.route.length ≠ 0 ∧
    graphFailNav.last_waypt ≠ graphFailWorld.fsm.current_way ∧
    track graphFailWorld.cmdr.graph graphFailWorld.cmdr.goal graphFailWorld.cmdr.goal2
      graphFailNav.last_waypt graphFailWorld.cmdr.route graphFailWorld.fsm.current_way =
      TrackResult.fail [⟨20, 21⟩] ⟨1⟩ ∧
    ((current_event { graphFailWorld with navstate := graphFailNav }).map Prod.fst =
       Option.some CmdrEvent.Fail ∧
     ∃ w2, control graphFailNav graphFailWorld = Option.some (fail_order, w2) ∧
       fail_order.behavior = Behavior.Abort ∧
       w2.fsm.state = CmdrState.Done) :=
  ⟨rfl, by decide, by decide, rfl,
    cmdr_graph_lookup_fail graphFailNav graphFailWorld [⟨20, 21⟩] ⟨1⟩ rfl
      (by decide) (by decide) rfl⟩

theorem walk_ne_oob (graph : Nat → Option ElementID) (goal goal2 lastw : ElementID) :
    ∀ (route : List WayPointEdge) (cw : ElementID) (g1 g2 : Bool),
      2 ≤ route.length →
      walk graph goal goal2 lastw route cw g1 g2 ≠ WalkResult.oob := by
  intro route
  induction route with
  | nil =>
    intro cw g1 g2 h
    simp at h
  | cons a rest ih =>
    intro cw g1 g2 h
    cases rest with
    | nil => simp at h
    | cons fe t =>
      unfold walk
      dsimp only
      cases hg : graph fe.startnode_index with
      | none => simp
      | some nid =>
        dsimp only
        split
        · rename_i hc
          exact ih nid _ _ hc.2
        · simp

theorem track_ne_oob (graph : Nat → Option ElementID) (goal goal2 lastw : ElementID)
    (route : List WayPointEdge) (cw : ElementID) (h2 : 2 ≤ route.length) :
    track graph goal goal2 lastw route cw ≠ TrackResult.oob := by
  unfold track
  cases hw : walk graph goal goal2 lastw route cw false false with
  | oob => exact absurd hw (walk_ne_oob graph goal goal2 lastw route cw false false h2)
  | fail r c => simp
  | ok r c g1 g2 fe =>
    dsimp only
    split
    · cases he : graph fe.endnode_index <;> simp
    · simp

/-- C10: the progress-tracking loop is in-bounds only for routes of at
least two edges — with exactly one edge and a moved reported waypoint
the do-while body pops the sole edge and evaluates the front of the now
empty route, which the embedding models as the walk's out-of-bounds
outcome and current_event's Option.none; with two or more edges that
error branch is unreachable and current_event always yields an event. -/
theorem cmdr_route_walk_bounds :
    (∀ (w : World) (e : WayPointEdge),
      w.cmdr.route = [e] →
      w.navstate.last_waypt ≠ w.fsm.current_way →
      walk w.cmdr.graph w.cmdr.goal w.cmdr.goal2 w.navstate.last_waypt
        w.cmdr.route w.fsm.current_way false false = WalkResult.oob ∧
      current_event w = Option.none) ∧
    (∀ (w : World), 2 ≤ w.cmdr.route.length → current_event w ≠ Option.none) := by
  constructor
  · intro w e hroute hmoved
    have hwalk : walk w.cmdr.graph w.cmdr.goal w.cmdr.goal2 w.navstate.last_waypt
        w.cmdr.route w.fsm.current_way false false = WalkResult.oob := by
      rw [hroute]
      rfl
    refine ⟨hwalk, ?_⟩
    have htr : track w.cmdr.graph w.cmdr.goal w.cmdr.goal2 w.navstate.last_waypt
        w.cmdr.route w.fsm.current_way = TrackResult.oob := by
      unfold track
      rw [hwalk]
    unfold current_event
    rw [if_neg (by rw [hroute]; simp), if_pos hmoved, htr]
  · intro w h2 hnone
    have h0 : ¬ w.cmdr.route.length = 0 := by omega
    unfold current_event at hnone
    rw [if_neg h0] at hnone
    by_cases h1 : w.navstate.last_waypt ≠ w.fsm.current_way
    · rw [if_pos h1] at hnone
      cases ht : track w.cmdr.graph w.cmdr.goal w.cmdr.goal2 w.navstate.last_waypt
          w.cmdr.route w.fsm.current_way with
      | oob => exact absurd ht (track_ne_oob _ _ _ _ _ _ h2)
      | fail r c =>
        rw [ht] at hnone
        cases hnone
      | ok r c g1 g2 =>
        rw [ht] at hnone
        cases hnone
    · rw [if_neg h1] at hnone
      cases hnone

/-- Concrete single-edge world for the first half of the C10 witness. -/
def oneEdgeWorld : World :=
  { fsm := ⟨⟨1⟩, ⟨0⟩, CmdrState.Road, CmdrState.Road⟩
    cmdr :=
      { route := [⟨10, 11⟩], goal := ⟨7⟩, goal2 := ⟨8⟩, pending := [⟨9⟩]
        graph := fun _ => Option.none, blockages := [], replan_ok := true
        replan_result := [], advances := 0, replans := 0 }
    navstate := ⟨⟨5⟩, ⟨0⟩, false⟩ }

/-- Concrete two-edge world for the second half of the C10 witness. -/
def twoEdgeWorld : World :=
  { fsm := ⟨⟨1⟩, ⟨0⟩, CmdrState.Road, CmdrState.Road⟩
    cmdr :=
      { route := [⟨10, 11⟩, ⟨20, 21⟩], goal := ⟨7⟩, goal2 := ⟨8⟩, pending := [⟨9⟩]
        graph := fun _ => Option.none, blockages := [], replan_ok := true
        replan_result := [], advances := 0, replans := 0 }
    navstate := ⟨⟨5⟩, ⟨0⟩, false⟩ }

/-- Witness for C10 at the concrete one-edge and two-edge worlds. -/
theorem cmdr_route_walk_bounds_witness :
    (oneEdgeWorld.cmdr.route = [⟨10, 11⟩] ∧
     oneEdgeWorld.navstate.last_waypt ≠ oneEdgeWorld.fsm.current_way ∧
     current_event oneEdgeWorld = Option.none) ∧
    (2 ≤ twoEdgeWorld.cmdr.route.length ∧
     current_event twoEdgeWorld ≠ Option.none) :=
  ⟨⟨rfl, by decide,
      (cmdr_route_walk_bounds.1 oneEdgeWorld ⟨10, 11⟩ rfl (by decide)).2⟩,
   ⟨by decide, cmdr_route_walk_bounds.2 twoEdgeWorld (by decide)⟩⟩

end ArtCmdr
